import Mathlib

/-!
Verification of the cocoindex standalone watcher's debouncing and
process-supervision logic, shallowly embedded from
`src/standalone_watcher.py` and `src/watch_and_index.py`.

Time is modelled by `ℚ` (the Python code uses `time.time()` floats; all
comparisons in the code are exact arithmetic comparisons, so rationals are a
faithful carrier).  Subprocess interaction is modelled by explicit outcome
data; Python exceptions are modelled with `Except`.
-/

namespace CocoWatcher

/-- A filesystem change event, as delivered by watchdog to
`CocoIndexEventHandler.on_any_event`.  `time` is the value `time.time()`
returns when the event is handled. -/
structure ChangeEvent where
  src_path : String
  is_directory : Bool
  time : ℚ
  deriving Repr, DecidableEq

/-- The mutable state of `CocoIndexEventHandler` relevant to debouncing:
`debounce_seconds` (constructor argument, default 2.0) and
`last_trigger_time` (initialised to `0` in `__init__`, line 42). -/
structure HandlerState where
  debounce_seconds : ℚ
  last_trigger_time : ℚ
  deriving Repr, DecidableEq

/-- Constructor `CocoIndexEventHandler.__init__`: `last_trigger_time = 0`. -/
def initHandler (debounce_seconds : ℚ) : HandlerState :=
  { debounce_seconds := debounce_seconds, last_trigger_time := 0 }

/-- The debounce decision taken under `self.lock` in `on_any_event`
(lines 51-55): if `current_time - last_trigger_time < debounce_seconds`
the event is rejected with no state change; otherwise
`last_trigger_time` is set to `current_time` and the event is accepted. -/
def gateStep (s : HandlerState) (now : ℚ) : HandlerState × Bool :=
  if now - s.last_trigger_time < s.debounce_seconds then (s, false)
  else ({ s with last_trigger_time := now }, true)

/-- Entry of `on_any_event`: directory events are filtered out before the
debounce gate runs (lines 47-48). -/
def on_any_event (s : HandlerState) (e : ChangeEvent) : HandlerState × Bool :=
  if e.is_directory then (s, false) else gateStep s e.time

/-- The accept/reject decisions over a sequence of gate calls (one per
non-directory event, each tagged with its `time.time()` value). -/
def gateDecisions (s : HandlerState) : List ℚ → List Bool
  | [] => []
  | t :: ts =>
    let r := gateStep s t
    r.2 :: gateDecisions r.1 ts

/-- The times of the accepted calls over a sequence of gate calls; each
accepted call starts one indexing run (`trigger_indexing`). -/
def acceptedTimes (s : HandlerState) : List ℚ → List ℚ
  | [] => []
  | t :: ts =>
    let r := gateStep s t
    if r.2 then t :: acceptedTimes r.1 ts else acceptedTimes r.1 ts

/-- Two indexing runs overlap if a run starts less than `dur` (the duration
of an indexing run) after the start of the previous run.  `trigger_indexing`
is executed outside the handler lock, so an accepted event starts its run
immediately at its accept time. -/
def hasOverlappingRuns (dur : ℚ) : List ℚ → Bool
  | [] => false
  | [_] => false
  | a :: b :: rest => decide (b < a + dur) || hasOverlappingRuns dur (b :: rest)

/-! ### trigger_indexing (standalone_watcher.py lines 62-103) -/

/-- Result of a completed `subprocess.run` call. -/
structure CompletedProcess where
  returncode : Int
  stdout : String
  stderr : String
  deriving Repr, DecidableEq

/-- Python exceptions that can escape `subprocess.run` in `trigger_indexing`:
`subprocess.TimeoutExpired`, or any other `Exception` (for instance
`FileNotFoundError` when the `cocoindex` binary cannot be spawned). -/
inductive PyExc
  | timeoutExpired
  | other (msg : String)
  deriving Repr, DecidableEq

/-- Outcome of attempting `subprocess.run(["cocoindex", "update", target],
capture_output=True, text=True, timeout=300)`. -/
inductive RunOutcome
  | completed (rc : Int) (out err : String)
  | timedOut
  | spawnFailed (msg : String)
  deriving Repr, DecidableEq

/-- Environment a single `trigger_indexing` call runs in:
whether the probe `cocoindex --version` succeeds, and what the update
command does if it is run. -/
structure TriggerEnv where
  backendAvailable : Bool
  outcome : RunOutcome
  deriving Repr, DecidableEq

/-- Model of `check_cocoindex_available` (lines 95-103): runs
`cocoindex --version` with a 10s timeout and returns whether it exited 0;
`TimeoutExpired` and `FileNotFoundError` are caught and yield `false`, so
the probe itself never raises. -/
def check_cocoindex_available (env : TriggerEnv) : Bool :=
  env.backendAvailable

/-- Messages `trigger_indexing` prints. -/
inductive LogMsg
  | startingIndexing
  | backendUnavailable
  | indexingSucceeded (out : String)
  | indexingFailed (err : String)
  | indexingTimedOut
  | errorDuringIndexing (msg : String)
  deriving Repr, DecidableEq

/-- Result of one `trigger_indexing` call: the messages printed, the
exception escaping the call (if any), and how many times the
`cocoindex --version` availability probe ran during the call. -/
structure TriggerResult where
  logs : List LogMsg
  exc : Option PyExc
  probes : Nat
  deriving Repr, DecidableEq

/-- Model of `subprocess.run(["cocoindex", "update", ...], timeout=300)`
at line 76: a timeout raises `TimeoutExpired`, a spawn failure raises some
other exception, and a completed run returns its result. -/
def runIndexCommand (env : TriggerEnv) : Except PyExc CompletedProcess :=
  match env.outcome with
  | .completed rc out err => .ok ⟨rc, out, err⟩
  | .timedOut => .error .timeoutExpired
  | .spawnFailed msg => .error (.other msg)

/-- Body of the `try` block of `trigger_indexing` (lines 64-86): probe the
backend once (return after printing if unavailable); run the update command;
print success (with stdout) on exit code 0, failure (with stderr) otherwise.
The `exc` field is the exception propagating out of the block. -/
def trigger_indexing_try (env : TriggerEnv) : TriggerResult :=
  if check_cocoindex_available env = false then
    ⟨[.startingIndexing, .backendUnavailable], none, 1⟩
  else
    match runIndexCommand env with
    | .error e => ⟨[.startingIndexing], some e, 1⟩
    | .ok r =>
      if r.returncode = 0 then ⟨[.startingIndexing, .indexingSucceeded r.stdout], none, 1⟩
      else ⟨[.startingIndexing, .indexingFailed r.stderr], none, 1⟩

/-- Model of `trigger_indexing` (lines 62-93): the `try` body wrapped in
the two `except` handlers, which print and swallow `TimeoutExpired`
(lines 88-91) and any other `Exception` (lines 92-93). -/
def trigger_indexing (env : TriggerEnv) : TriggerResult :=
  let t := trigger_indexing_try env
  match t.exc with
  | none => t
  | some .timeoutExpired => ⟨t.logs ++ [.indexingTimedOut], none, t.probes⟩
  | some (.other m) => ⟨t.logs ++ [.errorDuringIndexing m], none, t.probes⟩

/-- Outcome of a watch-mode session of `main` for probe accounting. -/
structure SessionResult where
  exitCode : Option Nat
  watchStarted : Bool
  totalProbes : Nat
  deriving Repr, DecidableEq

/-- Model of the probe behaviour of `main` in watch mode (lines 404-446,
without `--initial-index`): `check_cocoindex_available` runs once at startup
(line 409) and a missing backend exits with status 1 before
`observer.start()`; otherwise watching begins and each accepted event runs
`trigger_indexing`, whose own probe count is accumulated. -/
def mainWatchSession (availAtStartup : Bool) (triggers : List TriggerEnv) :
    SessionResult :=
  if availAtStartup = false then ⟨some 1, false, 1⟩
  else ⟨none, true, 1 + (triggers.map fun e => (trigger_indexing e).probes).sum⟩

/-! ### run_mcp_server (standalone_watcher.py lines 240-280) -/

/-- Steps `run_mcp_server` can take, in order. -/
inductive McpStep
  | flowFileCheck
  | importProbe
  | spawnServer
  deriving Repr, DecidableEq

/-- Behaviour of `subprocess.run(cmd, check=True)` for the server command:
it either runs to an exit code (a nonzero one raises
`CalledProcessError`), or is interrupted by `KeyboardInterrupt`. -/
inductive ServerRun
  | exited (rc : Int)
  | interrupted
  deriving Repr, DecidableEq

/-- Environment of a `run_mcp_server` call. -/
structure McpEnv where
  flowFileExists : Bool
  cocoindexImportable : Bool
  serverRun : ServerRun
  deriving Repr, DecidableEq

/-- Result of `run_mcp_server`: the steps taken and the `sys.exit` status,
`none` meaning the function returns without exiting the process. -/
structure McpResult where
  steps : List McpStep
  exitCode : Option Nat
  deriving Repr, DecidableEq

/-- Model of `run_mcp_server` (lines 240-280): missing flow file exits 1
(lines 246-249); a failing `import cocoindex` probe exits 1 (lines 251-258);
only then is the server subprocess spawned, with `CalledProcessError`
mapping to exit 1 and `KeyboardInterrupt` to exit 0. -/
def run_mcp_server (env : McpEnv) : McpResult :=
  if env.flowFileExists = false then ⟨[.flowFileCheck], some 1⟩
  else if env.cocoindexImportable = false then ⟨[.flowFileCheck, .importProbe], some 1⟩
  else
    match env.serverRun with
    | .exited rc =>
      if rc = 0 then ⟨[.flowFileCheck, .importProbe, .spawnServer], none⟩
      else ⟨[.flowFileCheck, .importProbe, .spawnServer], some 1⟩
    | .interrupted => ⟨[.flowFileCheck, .importProbe, .spawnServer], some 0⟩

/-! ### run_mcp_server_threaded (standalone_watcher.py lines 283-361) -/

/-- One iteration of the supervision loop (lines 332-345), as an action:
with `shutdown_event` set the loop exits without touching the pipes;
with the child exited (`poll()` non-`None`) the loop calls `communicate()`
to read both pipes and breaks; otherwise it sleeps 0.1s and polls again. -/
inductive SupAction
  | sleepPoll
  | readOutput
  | stopLoop
  deriving Repr, DecidableEq

/-- Trace of the supervision loop when shutdown is never requested:
`exitAfter` is the number of iterations before `poll()` first reports the
child exited, `fuel` bounds the observed iterations (the loop itself is
unbounded). -/
def supervisionActions : Nat → Nat → List SupAction
  | _, 0 => []
  | 0, _ + 1 => [SupAction.readOutput]
  | exitAfter + 1, fuel + 1 => SupAction.sleepPoll :: supervisionActions exitAfter fuel

/-- What the loop body does at one iteration, given whether
`shutdown_event.is_set()` and whether `poll()` reports the child exited
(in the order the code tests them, lines 332-345). -/
def supervisionStep (shutdownSet childExited : Bool) : SupAction :=
  if shutdownSet then .stopLoop
  else if childExited then .readOutput
  else .sleepPoll

/-- Behaviour of the supervised child while the thread runs. -/
inductive ChildBehavior
  | exits (rc : Int) (out err : String)
  | runsUntilShutdown
  deriving Repr, DecidableEq

/-- Environment of a `run_mcp_server_threaded` call. -/
structure ThreadedEnv where
  flowFileExists : Bool
  cocoindexImportable : Bool
  child : ChildBehavior
  deriving Repr, DecidableEq

/-- Messages `run_mcp_server_threaded` prints. -/
inductive ThreadLog
  | flowFileMissing
  | importFailed
  | childStdout (s : String)
  | childStderr (s : String)
  deriving Repr, DecidableEq

/-- Result of `run_mcp_server_threaded`: messages printed, whether the
`finally` block terminated a still-running child, the whole-process exit it
initiates (`none`: the thread just returns), and whether this code path sets
`shutdown_event`. -/
structure ThreadedOutcome where
  logs : List ThreadLog
  terminatedChild : Bool
  processExit : Option Nat
  setsShutdown : Bool
  deriving Repr, DecidableEq

/-- Model of `run_mcp_server_threaded` (lines 283-361): a missing flow file
or failing import probe prints and returns (no `sys.exit`, lines 292-309);
otherwise the child is spawned and supervised.  If the child exits on its
own, the loop prints any captured stdout/stderr and breaks, and the
`finally` block sees `poll()` non-`None` and does nothing (lines 331-345,
350).  If shutdown is requested first, the `finally` block terminates the
child (lines 349-361).  No branch exits the process or sets
`shutdown_event`. -/
def run_mcp_server_threaded (env : ThreadedEnv) : ThreadedOutcome :=
  if env.flowFileExists = false then ⟨[.flowFileMissing], false, none, false⟩
  else if env.cocoindexImportable = false then ⟨[.importFailed], false, none, false⟩
  else
    match env.child with
    | .exits _ out err =>
      ⟨(if out = "" then [] else [.childStdout out]) ++
        (if err = "" then [] else [.childStderr err]), false, none, false⟩
    | .runsUntilShutdown => ⟨[], true, none, false⟩

/-! ### watch_and_index.py -/

/-- Model of `watch_and_index.start_mcp_server` (lines 31-51):
`subprocess.run(..., check=True)` raises `CalledProcessError` on a nonzero
server exit; the `except Exception` handler then calls `os._exit(1)`.  A
zero exit returns normally and the thread ends.  Returns the whole-process
exit initiated, `none` meaning none. -/
def start_mcp_server (serverRC : Int) : Option Nat :=
  if serverRC = 0 then none else some 1

/-- Actions `watch_and_index.start_file_watcher` takes. -/
inductive WatcherAction
  | makeWatchDir
  | scheduleAndStart
  deriving Repr, DecidableEq

/-- Model of `watch_and_index.start_file_watcher` (lines 54-68): when the
watch root does not exist it is created with `os.makedirs` (lines 60-62),
then the observer is scheduled and started in every case. -/
def start_file_watcher (watchPathExists : Bool) : List WatcherAction :=
  (if watchPathExists then [] else [.makeWatchDir]) ++ [.scheduleAndStart]

/-! ### validate_paths and startup (standalone_watcher.py) -/

/-- Filesystem facts `validate_paths` consults. -/
structure PathEnv where
  watchPathExists : Bool
  watchPathIsDir : Bool
  appTargetExists : Bool
  deriving Repr, DecidableEq

/-- Exceptions `validate_paths` raises. -/
inductive PathErr
  | fileNotFound
  | notADirectory
  deriving Repr, DecidableEq

/-- Model of `validate_paths` (lines 141-155): raises `FileNotFoundError`
when the watch path does not exist, `NotADirectoryError` when it is not a
directory, `FileNotFoundError` when the app target does not exist; it never
creates anything. -/
def validate_paths (fs : PathEnv) : Except PathErr Unit :=
  if fs.watchPathExists = false then .error .fileNotFound
  else if fs.watchPathIsDir = false then .error .notADirectory
  else if fs.appTargetExists = false then .error .fileNotFound
  else .ok ()

/-- Startup validation in `main` (lines 382-387): a `FileNotFoundError` or
`NotADirectoryError` from `validate_paths` is caught, printed, and the
process exits with status 1; `none` means startup proceeds to watching. -/
def mainValidate (fs : PathEnv) : Option Nat :=
  match validate_paths fs with
  | .error _ => some 1
  | .ok _ => none

/-! ### companion termination (standalone_watcher.py lines 121-134, 349-361) -/

/-- View of the companion process held by the termination sequence:
whether `poll()` currently reports it running, and how long after a
`terminate()` signal it takes to exit (`none`: it ignores the signal). -/
structure CompanionProc where
  running : Bool
  termResponse : Option ℚ
  deriving Repr, DecidableEq

/-- Actions of the termination sequence. -/
inductive TermAction
  | sigTerm
  | waitGrace
  | forceKill
  deriving Repr, DecidableEq

/-- The termination sequence shared by the signal handler (lines 123-132)
and the `finally` block of `run_mcp_server_threaded` (lines 350-361):
when `poll() is None` (still running), call `terminate()`, `wait(timeout=5)`,
and on `TimeoutExpired` escalate to `kill()`; when the process has already
exited, do nothing.  Returns the process afterwards, the actions performed
and the time spent blocked in `wait`. -/
def terminateCompanion (p : CompanionProc) : CompanionProc × List TermAction × ℚ :=
  if p.running = false then (p, [], 0)
  else
    match p.termResponse with
    | some t =>
      if t ≤ 5 then ({ p with running := false }, [.sigTerm, .waitGrace], t)
      else ({ p with running := false }, [.sigTerm, .waitGrace, .forceKill], 5)
    | none => ({ p with running := false }, [.sigTerm, .waitGrace, .forceKill], 5)

/-! ## Lemmas about the debounce gate -/

theorem gateStep_reject (s : HandlerState) (t : ℚ)
    (h : t - s.last_trigger_time < s.debounce_seconds) :
    gateStep s t = (s, false) := by
  simp [gateStep, h]

theorem gateStep_accept (s : HandlerState) (t : ℚ)
    (h : s.debounce_seconds ≤ t - s.last_trigger_time) :
    gateStep s t = ({ s with last_trigger_time := t }, true) := by
  simp [gateStep, not_lt.mpr h]

theorem acceptedTimes_cons_reject (s : HandlerState) (t : ℚ) (ts : List ℚ)
    (h : t - s.last_trigger_time < s.debounce_seconds) :
    acceptedTimes s (t :: ts) = acceptedTimes s ts := by
  simp [acceptedTimes, gateStep_reject s t h]

theorem acceptedTimes_cons_accept (s : HandlerState) (t : ℚ) (ts : List ℚ)
    (h : s.debounce_seconds ≤ t - s.last_trigger_time) :
    acceptedTimes s (t :: ts) = t :: acceptedTimes { s with last_trigger_time := t } ts := by
  simp [acceptedTimes, gateStep_accept s t h]

theorem gateDecisions_cons_reject (s : HandlerState) (t : ℚ) (ts : List ℚ)
    (h : t - s.last_trigger_time < s.debounce_seconds) :
    gateDecisions s (t :: ts) = false :: gateDecisions s ts := by
  simp [gateDecisions, gateStep_reject s t h]

theorem gateDecisions_cons_accept (s : HandlerState) (t : ℚ) (ts : List ℚ)
    (h : s.debounce_seconds ≤ t - s.last_trigger_time) :
    gateDecisions s (t :: ts) = true :: gateDecisions { s with last_trigger_time := t } ts := by
  simp [gateDecisions, gateStep_accept s t h]

/-- Central invariant of the gate: consecutive accepted times are at least
the debounce window apart, and the first accepted time is at least one
window past the stored `last_trigger_time`. -/
theorem acceptedTimes_chain_head (d : ℚ) (ts : List ℚ) :
    ∀ (s : HandlerState), s.debounce_seconds = d →
      List.Chain' (fun a b => a + d ≤ b) (acceptedTimes s ts) ∧
      ∀ x ∈ (acceptedTimes s ts).head?, s.last_trigger_time + d ≤ x := by
  induction ts with
  | nil => exact fun s _ => ⟨List.chain'_nil, by simp [acceptedTimes]⟩
  | cons t ts ih =>
    intro s hd
    by_cases hc : t - s.last_trigger_time < s.debounce_seconds
    · rw [acceptedTimes_cons_reject s t ts hc]
      exact ih s hd
    · push_neg at hc
      rw [acceptedTimes_cons_accept s t ts hc]
      have ihs := ih { s with last_trigger_time := t } hd
      refine ⟨List.chain'_cons'.mpr ⟨fun y hy => ?_, ihs.1⟩, fun x hx => ?_⟩
      · simpa using ihs.2 y hy
      · have hx' : t = x := by simpa using hx
        subst hx'
        rw [hd] at hc
        linarith

/-- With a nonnegative window, any two accepted times (not only consecutive
ones) are at least the window apart. -/
theorem acceptedTimes_pairwise (d : ℚ) (hd : 0 ≤ d) (ts : List ℚ) (s : HandlerState)
    (hs : s.debounce_seconds = d) :
    (acceptedTimes s ts).Pairwise (fun a b => a + d ≤ b) := by
  haveI : IsTrans ℚ (fun a b => a + d ≤ b) :=
    ⟨fun _ b _ hab hbc => le_trans hab (le_trans (le_add_of_nonneg_right hd) hbc)⟩
  exact List.chain'_iff_pairwise.mp (acceptedTimes_chain_head d ts s hs).1

/-- When consecutive event times are at least the window apart and the first
event is at least one window past the stored timestamp, every event is
accepted. -/
theorem gateDecisions_all_accept (d : ℚ) (ts : List ℚ) :
    ∀ (s : HandlerState), s.debounce_seconds = d →
      (∀ x ∈ ts.head?, s.last_trigger_time + d ≤ x) →
      List.Chain' (fun a b => a + d ≤ b) ts →
      ∀ b ∈ gateDecisions s ts, b = true := by
  induction ts with
  | nil => intro s _ _ _ b hb; simp [gateDecisions] at hb
  | cons t ts ih =>
    intro s hsd hhead hch b hb
    have hacc : s.debounce_seconds ≤ t - s.last_trigger_time := by
      have := hhead t (by simp)
      rw [hsd]
      linarith
    rw [gateDecisions_cons_accept s t ts hacc] at hb
    rcases List.mem_cons.mp hb with h | h
    · exact h
    · refine ih { s with last_trigger_time := t } hsd ?_ (List.chain'_cons'.mp hch).2 b h
      intro x hx
      simpa using (List.chain'_cons'.mp hch).1 x hx

/-- The accepted times are a sublist of the event times: a rejected event is
dropped, never queued or replayed. -/
theorem acceptedTimes_sublist (ts : List ℚ) :
    ∀ s : HandlerState, (acceptedTimes s ts).Sublist ts := by
  induction ts with
  | nil => intro s; simp [acceptedTimes]
  | cons t ts ih =>
    intro s
    by_cases hc : t - s.last_trigger_time < s.debounce_seconds
    · rw [acceptedTimes_cons_reject s t ts hc]
      exact List.Sublist.cons t (ih s)
    · push_neg at hc
      rw [acceptedTimes_cons_accept s t ts hc]
      exact List.Sublist.cons₂ t (ih _)

/-- Runs of duration at most the gap guaranteed by the chain cannot
overlap. -/
theorem chain_no_overlap (d dur : ℚ) (hdur : dur ≤ d) :
    ∀ l : List ℚ, List.Chain' (fun a b => a + d ≤ b) l →
      hasOverlappingRuns dur l = false := by
  intro l
  induction l with
  | nil => intro _; rfl
  | cons a l ih =>
    intro hch
    cases l with
    | nil => rfl
    | cons b rest =>
      have hab : a + d ≤ b := (List.chain'_cons.mp hch).1
      have hnb : ¬ (b < a + dur) := by linarith
      simp only [hasOverlappingRuns, decide_eq_false hnb, Bool.false_or]
      exact ih (List.chain'_cons.mp hch).2

/-! ## Claims about the debounce gate -/

/-- C5 counterexample: `last_trigger_time` is initialised to `0`, not
negative infinity, so the very first gate call with `now = 1` and
`debounce_seconds = 2` is rejected — the claim that the first call is
accepted for every clock value is false. -/
theorem c5_first_call_rejected :
    (gateStep (initHandler 2) 1).2 = false := by
  rw [gateStep_reject (initHandler 2) 1 (by norm_num [initHandler])]

/-- C5 (amended): the first gate call is accepted, and records its time,
whenever the clock value is at least `debounce_seconds` past the initial
timestamp `0` — which always holds for the wall-clock `time.time()` values
the code passes. -/
theorem c5_amended_first_call (d now : ℚ) (h : d ≤ now) :
    (gateStep (initHandler d) now).2 = true ∧
    (gateStep (initHandler d) now).1.last_trigger_time = now := by
  rw [gateStep_accept (initHandler d) now (by simp only [initHandler]; linarith)]
  exact ⟨rfl, rfl⟩

/-- C5 witness: concrete first call at `now = 5` with a 2-second window. -/
theorem c5_amended_first_call_witness :
    (gateStep (initHandler 2) 5).2 = true ∧
    (gateStep (initHandler 2) 5).1.last_trigger_time = 5 :=
  c5_amended_first_call 2 5 (by norm_num)

/-- C2 counterexample: calls at times `1` and `3` (spaced exactly the
2-second window apart, and the first is the first-ever call with no prior
accepted call): the claim predicts both accepted, but the gate rejects the
first call because `last_trigger_time` starts at `0`, not negative
infinity. -/
theorem c2_gate_counterexample :
    List.Chain' (fun a b => a + 2 ≤ b) [(1 : ℚ), 3] ∧
    gateDecisions (initHandler 2) [1, 3] = [false, true] := by
  constructor
  · rw [List.chain'_cons]
    exact ⟨by norm_num, List.chain'_singleton 3⟩
  · rw [gateDecisions_cons_reject _ _ _ (by norm_num [initHandler]),
      gateDecisions_cons_accept _ _ _ (by norm_num [initHandler])]
    rfl

/-- C2 (amended): the gate accepts exactly when the elapsed time since the
stored `last_trigger_time` (initially `0`, thereafter the last accepted
time) reaches `debounce_seconds`; a rejected call leaves the state
unchanged; any two accepted calls are at least the window apart; and every
call in a sequence whose consecutive times are at least the window apart is
accepted, provided the first time is at least one window past the stored
timestamp (always true for wall-clock time). -/
theorem c2_amended_gate (d : ℚ) (hd : 0 ≤ d) (s : HandlerState)
    (hs : s.debounce_seconds = d) (t : ℚ) (ts : List ℚ) :
    (t - s.last_trigger_time < d → gateStep s t = (s, false)) ∧
    (d ≤ t - s.last_trigger_time →
      gateStep s t = ({ s with last_trigger_time := t }, true)) ∧
    (acceptedTimes s ts).Pairwise (fun a b => a + d ≤ b) ∧
    ((∀ x ∈ ts.head?, s.last_trigger_time + d ≤ x) →
      List.Chain' (fun a b => a + d ≤ b) ts →
      ∀ b ∈ gateDecisions s ts, b = true) := by
  refine ⟨fun h => gateStep_reject s t (by rw [hs]; exact h),
    fun h => gateStep_accept s t (by rw [hs]; exact h),
    acceptedTimes_pairwise d hd ts s hs,
    fun hhead hch => gateDecisions_all_accept d ts s hs hhead hch⟩

/-- C2 witness: window 2, a rejecting call at time 1 from the initial
state, and the sequence `[2, 4]` in which every call is accepted. -/
theorem c2_amended_gate_witness :
    gateStep (initHandler 2) 1 = (initHandler 2, false) ∧
    (acceptedTimes (initHandler 2) [2, 4]).Pairwise (fun a b => a + 2 ≤ b) ∧
    ∀ b ∈ gateDecisions (initHandler 2) [2, 4], b = true := by
  have h := c2_amended_gate 2 (by norm_num) (initHandler 2) rfl 1 [2, 4]
  refine ⟨h.1 (by norm_num [initHandler]), h.2.2.1, h.2.2.2 ?_ ?_⟩
  · intro x hx
    have hx' : (2 : ℚ) = x := by simpa using hx
    rw [← hx']
    norm_num [initHandler]
  · rw [List.chain'_cons]
    exact ⟨by norm_num, List.chain'_singleton 4⟩

/-- C1 counterexample: debounce window 2, indexing runs lasting 300s
(the code's fixed run timeout), events at times 2 and 5: both pass the
debounce gate, so the event at time 5 — delivered while the run started at
time 2 is still in flight — starts a second concurrent run.  No run-lock
exists in the code: `self.lock` only guards the debounce timestamp and is
released before `trigger_indexing` is called. -/
theorem c1_overlap_counterexample :
    acceptedTimes (initHandler 2) [2, 5] = [2, 5] ∧
    hasOverlappingRuns 300 (acceptedTimes (initHandler 2) [2, 5]) = true := by
  have h : acceptedTimes (initHandler 2) [2, 5] = [2, 5] := by
    rw [acceptedTimes_cons_accept _ _ _ (by norm_num [initHandler]),
      acceptedTimes_cons_accept _ _ _ (by norm_num [initHandler])]
    rfl
  refine ⟨h, ?_⟩
  rw [h]
  simp [hasOverlappingRuns]
  norm_num

/-- C1 (amended): the handler lock guards only the debounce timestamp;
an event inside the debounce window of the last accepted event is dropped
and never queued (the accepted times form a sublist of the event times),
and two concurrent runs are excluded only when the run duration does not
exceed the debounce window — runs longer than the window can overlap. -/
theorem c1_amended_run_exclusion (s : HandlerState) (ts : List ℚ) (dur : ℚ)
    (hdur : dur ≤ s.debounce_seconds) :
    (acceptedTimes s ts).Sublist ts ∧
    hasOverlappingRuns dur (acceptedTimes s ts) = false :=
  ⟨acceptedTimes_sublist ts s,
    chain_no_overlap s.debounce_seconds dur hdur _
      (acceptedTimes_chain_head s.debounce_seconds ts s rfl).1⟩

/-- C1 witness: window 2, run duration 2, events at 2 and 5: no overlap. -/
theorem c1_amended_run_exclusion_witness :
    (acceptedTimes (initHandler 2) [2, 5]).Sublist [2, 5] ∧
    hasOverlappingRuns 2 (acceptedTimes (initHandler 2) [2, 5]) = false :=
  c1_amended_run_exclusion (initHandler 2) [2, 5] 2 (by norm_num [initHandler])

/-! ## Claims about trigger_indexing and the startup probe -/

theorem trigger_indexing_probes_one (env : TriggerEnv) :
    (trigger_indexing env).probes = 1 := by
  rcases env with ⟨avail, outcome⟩
  cases avail
  · rfl
  · rcases outcome with ⟨rc, out, err⟩ | _ | m
    · by_cases hrc : rc = 0 <;>
        simp [trigger_indexing, trigger_indexing_try, check_cocoindex_available,
          runIndexCommand, hrc]
    · rfl
    · rfl

/-- C6: every per-event run outcome — timeout, nonzero exit, or a failure
to spawn the command mid-session — leaves `trigger_indexing` returning
normally: no exception escapes the call, a nonzero exit is logged with the
captured stderr, a timeout and a spawn failure are logged, and the handler
state is untouched so the trigger stays armed. -/
theorem c6_failures_absorbed :
    (∀ env : TriggerEnv, (trigger_indexing env).exc = none) ∧
    (∀ (rc : Int) (out err : String), rc ≠ 0 →
      (trigger_indexing ⟨true, .completed rc out err⟩).logs =
        [.startingIndexing, .indexingFailed err]) ∧
    ((trigger_indexing ⟨true, .timedOut⟩).logs =
      [.startingIndexing, .indexingTimedOut]) ∧
    (∀ m, (trigger_indexing ⟨true, .spawnFailed m⟩).logs =
      [.startingIndexing, .errorDuringIndexing m]) := by
  refine ⟨?_, ?_, rfl, fun m => rfl⟩
  · intro env
    rcases env with ⟨avail, outcome⟩
    cases avail
    · rfl
    · rcases outcome with ⟨rc, out, err⟩ | _ | m
      · by_cases hrc : rc = 0 <;>
          simp [trigger_indexing, trigger_indexing_try, check_cocoindex_available,
            runIndexCommand, hrc]
      · rfl
      · rfl
  · intro rc out err hrc
    simp [trigger_indexing, trigger_indexing_try, check_cocoindex_available,
      runIndexCommand, hrc]

/-- C6 witness: a nonzero exit (code 1, stderr "boom") is absorbed and
logged. -/
theorem c6_failures_absorbed_witness :
    (trigger_indexing ⟨true, .completed 1 "" "boom"⟩).exc = none ∧
    (trigger_indexing ⟨true, .completed 1 "" "boom"⟩).logs =
      [.startingIndexing, .indexingFailed "boom"] :=
  ⟨c6_failures_absorbed.1 ⟨true, .completed 1 "" "boom"⟩,
    c6_failures_absorbed.2.1 1 "" "boom" (by norm_num)⟩

/-- C7 counterexample: a session whose backend is available at startup and
that handles one indexing trigger performs two availability probes — one in
`main` at startup and one inside `trigger_indexing` (line 68) — refuting
"probed exactly once, at startup". -/
theorem c7_reprobe_counterexample :
    (mainWatchSession true [⟨true, .completed 0 "" ""⟩]).totalProbes = 2 := by
  simp [mainWatchSession, trigger_indexing_probes_one]

/-- C7 (amended): the availability probe runs once at startup, where a
missing backend exits the process with status 1 before watching begins; but
it is additionally re-run once inside every `trigger_indexing` call, where
absence is logged and the run skipped, never fatal. -/
theorem c7_amended_probe_policy (triggers : List TriggerEnv) :
    mainWatchSession false triggers = ⟨some 1, false, 1⟩ ∧
    ((mainWatchSession true triggers).exitCode = none ∧
      (mainWatchSession true triggers).watchStarted = true ∧
      (mainWatchSession true triggers).totalProbes = 1 + triggers.length) ∧
    (∀ env : TriggerEnv, (trigger_indexing env).probes = 1) ∧
    (∀ outcome, (trigger_indexing ⟨false, outcome⟩).exc = none ∧
      (trigger_indexing ⟨false, outcome⟩).logs =
        [.startingIndexing, .backendUnavailable]) := by
  refine ⟨rfl, ⟨rfl, rfl, ?_⟩, trigger_indexing_probes_one, fun outcome => ⟨rfl, rfl⟩⟩
  show 1 + (triggers.map fun e => (trigger_indexing e).probes).sum = 1 + triggers.length
  congr 1
  induction triggers with
  | nil => rfl
  | cons e l ih => simp [trigger_indexing_probes_one e, ih, Nat.add_comm]

/-- C10: in companion-only mode, a missing flow file or a failing
`import cocoindex` probe exits the process with status 1 and the server
subprocess is never spawned. -/
theorem c10_mcp_only_preflight (env : McpEnv)
    (h : env.flowFileExists = false ∨ env.cocoindexImportable = false) :
    (run_mcp_server env).exitCode = some 1 ∧
    McpStep.spawnServer ∉ (run_mcp_server env).steps := by
  rcases env with ⟨fe, ci, sr⟩
  rcases h with h | h
  · subst h
    refine ⟨rfl, ?_⟩
    show McpStep.spawnServer ∉ [McpStep.flowFileCheck]
    decide
  · subst h
    cases fe
    · refine ⟨rfl, ?_⟩
      show McpStep.spawnServer ∉ [McpStep.flowFileCheck]
      decide
    · refine ⟨rfl, ?_⟩
      show McpStep.spawnServer ∉ [McpStep.flowFileCheck, McpStep.importProbe]
      decide

/-- C10 witness: missing flow file with an importable backend. -/
theorem c10_mcp_only_preflight_witness :
    (run_mcp_server ⟨false, true, .exited 0⟩).exitCode = some 1 ∧
    McpStep.spawnServer ∉ (run_mcp_server ⟨false, true, .exited 0⟩).steps :=
  c10_mcp_only_preflight ⟨false, true, .exited 0⟩ (Or.inl rfl)

/-! ## Claims about the companion supervision and shutdown -/

/-- C3: the supervision loop of `run_mcp_server_threaded` reads the child's
output pipes only after `poll()` reports the child exited: up to the exit
the trace is sleep-and-poll iterations only, with the single
`communicate()` read coming strictly after, and at any iteration where the
child has not exited the loop body never reads.  This is exactly the
wait-then-read pattern the claim says never occurs, so a child that fills
the OS pipe buffer before exiting blocks forever and is never drained. -/
theorem c3_wait_then_read (exitAfter fuel : Nat) :
    supervisionActions exitAfter fuel =
      List.replicate (min exitAfter fuel) .sleepPoll ++
        (if exitAfter < fuel then [.readOutput] else []) ∧
    ∀ shutdownSet, supervisionStep shutdownSet false =
      (if shutdownSet then .stopLoop else .sleepPoll) := by
  constructor
  · induction fuel generalizing exitAfter with
    | zero => simp [supervisionActions]
    | succ fuel ih =>
      cases exitAfter with
      | zero => simp [supervisionActions]
      | succ exitAfter =>
        rw [supervisionActions, ih exitAfter, Nat.succ_min_succ, List.replicate_succ]
        simp [Nat.succ_lt_succ_iff]
  · intro sh
    cases sh <;> simp [supervisionStep]

/-- C4 counterexample: in `standalone_watcher.py` combined mode, the
companion exiting with nonzero code 1 (stderr "boom") while supervised
leads the supervision thread to print the captured output and return: no
whole-process exit is initiated, the child is not (re)terminated, and
`shutdown_event` is not set — the watcher keeps running, contradicting the
claim that the orchestrator shuts down and the process exits nonzero. -/
theorem c4_crash_not_fatal_counterexample :
    run_mcp_server_threaded ⟨true, true, .exits 1 "" "boom"⟩ =
      ⟨[.childStderr "boom"], false, none, false⟩ := by
  simp [run_mcp_server_threaded]

/-- C4 (amended): companion-crash handling differs per entry point: in
`watch_and_index.py` a nonzero companion exit terminates the whole process
with status 1 (`os._exit(1)` in the `except` handler of
`start_mcp_server`), while in `standalone_watcher.py` combined mode the
companion's unexpected exit only has its captured output printed and the
supervision thread returns — no shutdown is initiated and no process exit
occurs. -/
theorem c4_amended_crash_handling (rc : Int) (out err : String) (hrc : rc ≠ 0) :
    start_mcp_server rc = some 1 ∧
    (run_mcp_server_threaded ⟨true, true, .exits rc out err⟩).processExit = none ∧
    (run_mcp_server_threaded ⟨true, true, .exits rc out err⟩).setsShutdown = false :=
  ⟨by simp [start_mcp_server, hrc], rfl, rfl⟩

/-- C4 witness: companion exit code 1. -/
theorem c4_amended_crash_handling_witness :
    start_mcp_server 1 = some 1 ∧
    (run_mcp_server_threaded ⟨true, true, .exits 1 "" "boom"⟩).processExit = none ∧
    (run_mcp_server_threaded ⟨true, true, .exits 1 "" "boom"⟩).setsShutdown = false :=
  c4_amended_crash_handling 1 "" "boom" (by norm_num)

/-- C8 counterexample: `watch_and_index.start_file_watcher` with a missing
watch root creates the directory (`os.makedirs`) and starts watching — it
neither fails with a path error nor exits the process, contradicting the
claim that a missing root is never created and always aborts startup. -/
theorem c8_missing_root_created :
    start_file_watcher false = [.makeWatchDir, .scheduleAndStart] := rfl

/-- C8 (amended): in `standalone_watcher.py` the watch path must exist and
be a directory (and the app target must exist): otherwise `validate_paths`
raises and `main` exits with status 1 before watching begins, and nothing
is created.  In `watch_and_index.py`, however, a missing watch root is
created via `os.makedirs` (with a log message) and watching proceeds. -/
theorem c8_amended_path_validation (fs : PathEnv) :
    ((fs.watchPathExists = false ∨ fs.watchPathIsDir = false) →
      mainValidate fs = some 1) ∧
    (mainValidate fs = none ↔
      fs.watchPathExists = true ∧ fs.watchPathIsDir = true ∧
        fs.appTargetExists = true) ∧
    start_file_watcher false = [.makeWatchDir, .scheduleAndStart] := by
  rcases fs with ⟨we, wd, ae⟩
  cases we <;> cases wd <;> cases ae <;> exact (by decide)

/-- C8 witness: watch path missing. -/
theorem c8_amended_path_validation_witness :
    mainValidate ⟨false, true, true⟩ = some 1 ∧
    start_file_watcher false = [.makeWatchDir, .scheduleAndStart] :=
  ⟨(c8_amended_path_validation ⟨false, true, true⟩).1 (Or.inl rfl),
    (c8_amended_path_validation ⟨false, true, true⟩).2.2⟩

theorem terminateCompanion_not_running (tr : Option ℚ) :
    terminateCompanion ⟨false, tr⟩ = (⟨false, tr⟩, [], 0) := rfl

theorem terminateCompanion_graceful (t : ℚ) (ht : t ≤ 5) :
    terminateCompanion ⟨true, some t⟩ =
      (⟨false, some t⟩, [.sigTerm, .waitGrace], t) := by
  simp [terminateCompanion, ht]

theorem terminateCompanion_escalate (t : ℚ) (ht : ¬ t ≤ 5) :
    terminateCompanion ⟨true, some t⟩ =
      (⟨false, some t⟩, [.sigTerm, .waitGrace, .forceKill], 5) := by
  simp [terminateCompanion, ht]

theorem terminateCompanion_unresponsive :
    terminateCompanion ⟨true, none⟩ =
      (⟨false, none⟩, [.sigTerm, .waitGrace, .forceKill], 5) := rfl

/-- C9: the termination sequence sends the graceful `terminate()` signal,
blocks at most the 5-second grace period in `wait`, escalates to `kill()`
exactly when the child has not exited within the grace period, is a no-op
on an already-exited process, leaves the process down afterwards, and a
second call in succession is therefore also a no-op. -/
theorem c9_terminate_tolerant (p : CompanionProc) :
    (p.running = false → terminateCompanion p = (p, [], 0)) ∧
    (terminateCompanion p).2.2 ≤ 5 ∧
    ((terminateCompanion p).1).running = false ∧
    terminateCompanion ((terminateCompanion p).1) =
      ((terminateCompanion p).1, [], 0) ∧
    (∀ t : ℚ, p.running = true → p.termResponse = some t → t ≤ 5 →
      (terminateCompanion p).2.1 = [.sigTerm, .waitGrace] ∧
      (terminateCompanion p).2.2 = t) ∧
    (p.running = true → p.termResponse = none →
      (terminateCompanion p).2.1 = [.sigTerm, .waitGrace, .forceKill] ∧
      (terminateCompanion p).2.2 = 5) := by
  rcases p with ⟨running, tr⟩
  cases running
  · refine ⟨fun _ => terminateCompanion_not_running tr, ?_, rfl,
      terminateCompanion_not_running tr, ?_, ?_⟩
    · show (0 : ℚ) ≤ 5
      norm_num
    · intro t h _ _
      exact Bool.noConfusion h
    · intro h _
      exact Bool.noConfusion h
  · rcases tr with _ | t
    · rw [terminateCompanion_unresponsive]
      refine ⟨fun h => Bool.noConfusion h, by norm_num, rfl,
        terminateCompanion_not_running none, ?_, fun _ _ => ⟨rfl, rfl⟩⟩
      intro t _ h _
      exact Option.noConfusion h
    · by_cases ht : t ≤ 5
      · rw [terminateCompanion_graceful t ht]
        refine ⟨fun h => Bool.noConfusion h, ht, rfl,
          terminateCompanion_not_running (some t), ?_, ?_⟩
        · intro t' _ hsome _
          injection hsome with h'
          subst h'
          exact ⟨rfl, rfl⟩
        · intro _ h
          exact Option.noConfusion h
      · rw [terminateCompanion_escalate t ht]
        refine ⟨fun h => Bool.noConfusion h, by norm_num, rfl,
          terminateCompanion_not_running (some t), ?_, ?_⟩
        · intro t' _ hsome hle
          injection hsome with h'
          subst h'
          exact absurd hle ht
        · intro _ h
          exact Option.noConfusion h

/-- C9 witness: a no-op on an exited process, graceful stop within grace,
and kill-escalation for an unresponsive child. -/
theorem c9_terminate_tolerant_witness :
    terminateCompanion ⟨false, none⟩ = (⟨false, none⟩, [], 0) ∧
    (terminateCompanion ⟨true, some 1⟩).2.1 = [.sigTerm, .waitGrace] ∧
    (terminateCompanion ⟨true, none⟩).2.1 =
      [.sigTerm, .waitGrace, .forceKill] :=
  ⟨(c9_terminate_tolerant ⟨false, none⟩).1 rfl,
    ((c9_terminate_tolerant ⟨true, some 1⟩).2.2.2.2.1 1 rfl rfl (by norm_num)).1,
    ((c9_terminate_tolerant ⟨true, none⟩).2.2.2.2.2 rfl rfl).1⟩

end CocoWatcher
